import Mathlib

/-!
Shallow embedding of the engineering-drawing generator script
(src/qwen-vl-finetune/3d_synthetic_data_generator.py).

Geometry is modelled over the rationals: every numeric literal of the
source (0.15, 1e-2, 0.2, ...) is carried as the exact rational it denotes.
Matplotlib calls are modelled as a trace of rendering operations (AxOp);
trimesh library calls are abstracted as fields of the Mesh structure.
Python's numpy.allclose default relative tolerance (rtol = 1e-5) is kept,
since the source calls np.allclose(path[0], path[-1], atol=tol) without
overriding rtol.
-/

/-- A 2D point (one row of a discrete polyline array). -/
abbrev Point : Type := ℚ × ℚ

/-- A 3D vector (plane origins / normals, mesh bounds, centers). -/
abbrev Vec3 : Type := ℚ × ℚ × ℚ

/-- numpy allclose absolute tolerance as passed by the source: tol = 1e-2. -/
def npAtol : ℚ := 1 / 100

/-- numpy allclose default relative tolerance, rtol = 1e-5 (the source does
not override it). -/
def npRtol : ℚ := 1 / 100000

/-- One coordinate of numpy's allclose test: |a - b| <= atol + rtol * |b|. -/
def coordClose (a b : ℚ) : Bool :=
  decide (|a - b| ≤ npAtol + npRtol * |b|)

/-- numpy.allclose on two 2D points (elementwise test, reduced with and). -/
def np_allclose (a b : Point) : Bool :=
  coordClose a.1 b.1 && coordClose a.2 b.2

/-- Source `is_path_closed(path, tol=1e-2)`: first and last point of the
polyline match within tolerance.  The empty-list case (an exception in the
source, since path[0] would fail) is mapped to false; all theorems restrict
to nonempty polylines. -/
def is_path_closed (path : List Point) : Bool :=
  match path.head?, path.getLast? with
  | some a, some b => np_allclose a b
  | _, _ => false

/-- The point sequence actually used to build the polygon: the source
appends path[0] (np.vstack([path, path[0]])) when the path is not closed. -/
def closePoints (path : List Point) : List Point :=
  if is_path_closed path then path else path ++ [path.headI]

/-- matplotlib Path vertex codes used by the source. -/
inductive PathCode where
  | moveto
  | lineto
  | closepoly
deriving DecidableEq, Repr

/-- Source `codes = [MOVETO] + [LINETO] * (len(path) - 2) + [CLOSEPOLY]`.
Python's list repetition with a negative count yields [], matching Nat
truncated subtraction. -/
def pathCodes (n : ℕ) : List PathCode :=
  [PathCode.moveto] ++ List.replicate (n - 2) PathCode.lineto ++ [PathCode.closepoly]

/-- One matplotlib Axes operation issued by the script. -/
inductive AxOp where
  | setTitleOp (s : String)
  | axisOffOp
  | addPatchOp (pts : List Point) (codes : List PathCode) (filled : Bool)
  | plotLineOp (xs ys : List ℚ) (dashed : Bool)
  | arrowOp (p q : Point)
  | textOp (x y : ℚ) (s : String) (ha va : String) (rot : ℚ)
  | setXlimOp (lo hi : ℚ)
  | setYlimOp (lo hi : ℚ)
  | setAspectEqualOp
deriving DecidableEq, Repr

/-- A trimesh Path2D as consumed by the script: the list of discrete
polylines plus the bounding box the library reports (path2D.bounds). -/
structure Path2D where
  discrete : List (List Point)
  boundsMin : Point
  boundsMax : Point
deriving DecidableEq, Repr

/-- Python `f"{q:.2f}"`: fixed-point rendering with two decimals (rounding
to the nearest hundredth; exact decimal ties, which floats almost never
produce, are rounded up here where Python rounds the underlying binary
value to even). -/
def fmt2 (q : ℚ) : String :=
  let c : ℤ := round (q * 100)
  let sign := if c < 0 then ("-") else ("")
  let n := c.natAbs
  let ip := n / 100
  let fp := n % 100
  sign ++ toString ip ++ (".") ++ (if fp < 10 then ("0") else ("")) ++ toString fp

/-- Source `add_dimension_annotations(ax, path2D, view_name)`: the exact
sequence of Axes calls it performs (two dashed extension lines, one
double-headed arrow and one centered label per axis; view_name is unused
in the source body). -/
def add_dimension_annotations (path2D : Path2D) (_view_name : String) : List AxOp :=
  let min_pt := path2D.boundsMin
  let max_pt := path2D.boundsMax
  let width := max_pt.1 - min_pt.1
  let height := max_pt.2 - min_pt.2
  let offset := max width height * (15 / 100)
  let y_dim := min_pt.2 - offset
  let x_dim := max_pt.1 + offset
  [AxOp.plotLineOp [min_pt.1, min_pt.1] [min_pt.2, y_dim] true,
   AxOp.plotLineOp [max_pt.1, max_pt.1] [max_pt.2, y_dim] true,
   AxOp.arrowOp (min_pt.1, y_dim) (max_pt.1, y_dim),
   AxOp.textOp ((min_pt.1 + max_pt.1) / 2) (y_dim - offset * (1 / 10))
     (fmt2 width ++ (" mm")) ("center") ("top") 0,
   AxOp.plotLineOp [x_dim, max_pt.1] [max_pt.2, max_pt.2] true,
   AxOp.plotLineOp [x_dim, min_pt.1] [min_pt.2, min_pt.2] true,
   AxOp.arrowOp (x_dim, min_pt.2) (x_dim, max_pt.2),
   AxOp.textOp (x_dim + offset * (1 / 10)) ((min_pt.2 + max_pt.2) / 2)
     (fmt2 height ++ (" mm")) ("left") ("center") 90]

/-- Loop body of plot_cross_section: one PathPatch per discrete polyline,
built from the (possibly force-closed) points, facecolor="none" (boundary
only, no fill). -/
def patchOf (path : List Point) : AxOp :=
  AxOp.addPatchOp (closePoints path) (pathCodes (closePoints path).length) false

/-- Source `plot_cross_section(ax, path2D, title, show_dimensions=True)` as
the trace of Axes operations it performs.  A None section renders only the
placeholder title and hides the axes. -/
def plot_cross_section (path2D : Option Path2D) (title : String)
    (show_dimensions : Bool) : List AxOp :=
  match path2D with
  | none => [AxOp.setTitleOp (title ++ (" (No section)")), AxOp.axisOffOp]
  | some p =>
    let patches := p.discrete.map patchOf
    let dims := if show_dimensions then add_dimension_annotations p title else []
    let min_pt := p.boundsMin
    let max_pt := p.boundsMax
    let padding := (2 / 10) * max (max_pt.1 - min_pt.1) (max_pt.2 - min_pt.2)
    patches ++ dims ++
      [AxOp.setXlimOp (min_pt.1 - padding) (max_pt.1 + padding),
       AxOp.setYlimOp (min_pt.2 - padding) (max_pt.2 + padding),
       AxOp.setAspectEqualOp, AxOp.axisOffOp]

/-- Recognizer for patch (geometry) operations. -/
def isPatchOp (op : AxOp) : Bool :=
  match op with
  | AxOp.addPatchOp _ _ _ => true
  | _ => false

/-- Recognizer for dimension-annotation operations (extension/dimension
lines, arrows, labels). -/
def isDimOp (op : AxOp) : Bool :=
  match op with
  | AxOp.plotLineOp _ _ _ => true
  | AxOp.arrowOp _ _ => true
  | AxOp.textOp _ _ _ _ _ _ => true
  | _ => false

/-- Recognizer for text-label operations. -/
def isTextOp (op : AxOp) : Bool :=
  match op with
  | AxOp.textOp _ _ _ _ _ _ => true
  | _ => false

/-- Recognizer for dashed plotted lines. -/
def isDashedLineOp (op : AxOp) : Bool :=
  match op with
  | AxOp.plotLineOp _ _ d => d
  | _ => false

/-- Recognizer for double-headed dimension arrows. -/
def isArrowOp (op : AxOp) : Bool :=
  match op with
  | AxOp.arrowOp _ _ => true
  | _ => false

/-- A trimesh Path3D as consumed by the script: the only operation invoked
on it is to_2D(), whose result (the planar Path2D and the to-3D transform)
it carries. -/
structure Path3D where
  planar : Path2D
  to3DTransform : List (List ℚ)

/-- Library `section.to_2D()`: returns the 2D path and the transform. -/
def Path3D.to_2D (s : Path3D) : Path2D × List (List ℚ) :=
  (s.planar, s.to3DTransform)

/-- A trimesh mesh as consumed by the script: axis-aligned bounds
(mesh.bounds rows), center of mass, and the planar-section operation
(mesh.section), abstracted as a function from plane origin and normal to
an optional 3D section path. -/
structure Mesh where
  boundsMin : Vec3
  boundsMax : Vec3
  center_mass : Vec3
  sectionFn : Vec3 → Vec3 → Option Path3D

/-- Library `mesh.apply_translation(t)`: rigidly translates every geometric
attribute of the mesh by t (bounds and center of mass shift by t; a plane
section of the translated mesh is the section of the original mesh at the
shifted-back origin). -/
def Mesh.apply_translation (m : Mesh) (t : Vec3) : Mesh :=
  { boundsMin := m.boundsMin + t
    boundsMax := m.boundsMax + t
    center_mass := m.center_mass + t
    sectionFn := fun origin normal => m.sectionFn (origin - t) normal }

/-- Source `load_and_center_mesh(file_path)`: the disk read
(trimesh.load_mesh) is abstracted away — the argument is the mesh as
loaded — and the loaded mesh is translated by the negation of its center
of mass. -/
def load_and_center_mesh (m : Mesh) : Mesh :=
  m.apply_translation (-m.center_mass)

/-- Source `get_cross_section(mesh, origin, normal)`: None when the library
section is empty, otherwise the first component of to_2D(). -/
def get_cross_section (mesh : Mesh) (origin normal : Vec3) : Option Path2D :=
  match mesh.sectionFn origin normal with
  | none => none
  | some s => some s.to_2D.1

/-- Result dictionary of get_mesh_dimensions. -/
structure MeshDims where
  length : ℚ
  width : ℚ
  height : ℚ
  bounds : Vec3 × Vec3
deriving DecidableEq, Repr

/-- Source `get_mesh_dimensions(mesh)`: dimensions = bounds[1] - bounds[0],
reported per axis together with the bounds. -/
def get_mesh_dimensions (m : Mesh) : MeshDims :=
  { length := m.boundsMax.1 - m.boundsMin.1
    width := m.boundsMax.2.1 - m.boundsMin.2.1
    height := m.boundsMax.2.2 - m.boundsMin.2.2
    bounds := (m.boundsMin, m.boundsMax) }

/-- A value of the drawing-info dictionary: a plain string, or the nested
tolerances mapping. -/
inductive FieldVal where
  | str (s : String)
  | tolmap (pairs : List (String × String))
deriving DecidableEq, Repr

/-- The drawing-info dictionary: string keys in insertion order. -/
abbrev DrawingInfo : Type := List (String × FieldVal)

/-- Python dict indexing drawing_info[k], as an optional lookup. -/
def lookupInfo (info : DrawingInfo) (k : String) : Option FieldVal :=
  (info.find? (fun p => p.1 == k)).map (fun p => p.2)

/-- Source `EngineeringDrawing.get_default_drawing_info()`; the
datetime.now() date string is threaded as the `today` parameter. -/
def get_default_drawing_info (today : String) : DrawingInfo :=
  [(("part_name"), FieldVal.str ("PART NAME")),
   (("part_number"), FieldVal.str ("PN-000-000")),
   (("material"), FieldVal.str ("MATERIAL TBD")),
   (("scale"), FieldVal.str ("1:1")),
   (("projection_method"), FieldVal.str ("THIRD ANGLE")),
   (("drawing_number"), FieldVal.str ("DWG-001")),
   (("revision"), FieldVal.str ("A")),
   (("drawn_by"), FieldVal.str ("ENGINEER")),
   (("checked_by"), FieldVal.str ("CHECKER")),
   (("approved_by"), FieldVal.str ("APPROVER")),
   (("date"), FieldVal.str today),
   (("company"), FieldVal.str ("COMPANY NAME")),
   (("title"), FieldVal.str ("ENGINEERING DRAWING")),
   (("units"), FieldVal.str ("mm")),
   (("surface_finish"), FieldVal.str ("3.2 μm")),
   (("tolerances"), FieldVal.tolmap [(("linear"), ("±0.1")), (("angular"), ("±0.5°"))])]

/-- Source `EngineeringDrawing.__init__`: `drawing_info or default` — a
None or empty (falsy) mapping is replaced wholesale by the default
template; any non-empty mapping is used as given. -/
def init_drawing_info (today : String) (drawing_info : Option DrawingInfo) : DrawingInfo :=
  match drawing_info with
  | none => get_default_drawing_info today
  | some i => if i.isEmpty then get_default_drawing_info today else i

/-- Python exceptions the modelled fragment can raise. -/
inductive PyExc where
  | keyError (k : String)
  | typeError (msg : String)
deriving DecidableEq, Repr

/-- Python str(e) for the modelled exceptions (str of a KeyError is the
key wrapped in single quotes). -/
def pyExcStr (e : PyExc) : String :=
  match e with
  | PyExc.keyError k => ("\x27") ++ k ++ ("\x27")
  | PyExc.typeError msg => msg

/-- Python `drawing_info[k]` where a string is expected: raises KeyError on
a missing key.  (A tolmap value placed in a text field would be rendered
via the dict's repr; no key of the templates is consumed that way, so it
is rendered as the empty string here.) -/
def getStr (info : DrawingInfo) (k : String) : Except PyExc String :=
  match lookupInfo info k with
  | none => Except.error (PyExc.keyError k)
  | some (FieldVal.str s) => Except.ok s
  | some (FieldVal.tolmap _) => Except.ok ("")

/-- Python `drawing_info["tolerances"][sub]`: KeyError if "tolerances" is
missing, TypeError if it is a plain string, KeyError on a missing subkey. -/
def getTolSub (info : DrawingInfo) (sub : String) : Except PyExc String :=
  match lookupInfo info ("tolerances") with
  | none => Except.error (PyExc.keyError ("tolerances"))
  | some (FieldVal.str _) => Except.error (PyExc.typeError ("string indices must be integers"))
  | some (FieldVal.tolmap ps) =>
    match (ps.find? (fun p => p.1 == sub)).map (fun p => p.2) with
    | none => Except.error (PyExc.keyError sub)
    | some v => Except.ok v

/-- Rendered title block: the axes rectangle, divider positions, and the
text fields (text, x, y, fontsize, weight) in source order. -/
structure TitleBlockRender where
  axRect : ℚ × ℚ × ℚ × ℚ
  hdividers : List ℚ
  vdividers : List ℚ
  fields : List (String × ℚ × ℚ × ℕ × String)
deriving DecidableEq, Repr

/-- Source `create_title_block(fig, drawing_info)`: dictionary lookups in
the evaluation order of the fields list; fails with KeyError on the first
missing key. -/
def create_title_block (drawing_info : DrawingInfo) : Except PyExc TitleBlockRender := do
  let company ← getStr drawing_info ("company")
  let title ← getStr drawing_info ("title")
  let part_name ← getStr drawing_info ("part_name")
  let part_number ← getStr drawing_info ("part_number")
  let material ← getStr drawing_info ("material")
  let scale ← getStr drawing_info ("scale")
  let projection_method ← getStr drawing_info ("projection_method")
  let units ← getStr drawing_info ("units")
  let drawn_by ← getStr drawing_info ("drawn_by")
  let date ← getStr drawing_info ("date")
  let drawing_number ← getStr drawing_info ("drawing_number")
  Except.ok
    { axRect := (6 / 10, 2 / 100, 35 / 100, 25 / 100)
      hdividers := [2, 4, 6, 8]
      vdividers := [3, 6]
      fields :=
        [(company, 5, 9, 12, ("bold")),
         (title, 5, 83 / 10, 10, ("bold")),
         (("PART NAME:"), 2 / 10, 73 / 10, 8, ("bold")),
         (part_name, 32 / 10, 73 / 10, 8, ("normal")),
         (("PART NUMBER:"), 62 / 10, 73 / 10, 8, ("bold")),
         (part_number, 62 / 10, 67 / 10, 8, ("normal")),
         (("MATERIAL:"), 2 / 10, 53 / 10, 8, ("bold")),
         (material, 32 / 10, 53 / 10, 8, ("normal")),
         (("SCALE:"), 62 / 10, 53 / 10, 8, ("bold")),
         (scale, 62 / 10, 47 / 10, 8, ("normal")),
         (("PROJECTION:"), 2 / 10, 33 / 10, 8, ("bold")),
         (projection_method, 32 / 10, 33 / 10, 8, ("normal")),
         (("UNITS:"), 62 / 10, 33 / 10, 8, ("bold")),
         (units, 62 / 10, 27 / 10, 8, ("normal")),
         (("DRAWN BY:"), 2 / 10, 13 / 10, 7, ("bold")),
         (drawn_by, 2 / 10, 7 / 10, 7, ("normal")),
         (("DATE:"), 32 / 10, 13 / 10, 7, ("bold")),
         (date, 32 / 10, 7 / 10, 7, ("normal")),
         (("DWG NO:"), 62 / 10, 13 / 10, 7, ("bold")),
         (drawing_number, 62 / 10, 7 / 10, 7, ("normal"))] }

/-- Rendered notes panel: the axes rectangle, header, and the numbered
note lines in source order. -/
structure NotesRender where
  axRect : ℚ × ℚ × ℚ × ℚ
  header : String
  notes : List String
deriving DecidableEq, Repr

/-- Source `create_notes_section(fig, drawing_info)`: dictionary lookups in
the evaluation order of the notes list; fails with KeyError on the first
missing key. -/
def create_notes_section (drawing_info : DrawingInfo) : Except PyExc NotesRender := do
  let units ← getStr drawing_info ("units")
  let linear ← getTolSub drawing_info ("linear")
  let angular ← getTolSub drawing_info ("angular")
  let surface_finish ← getStr drawing_info ("surface_finish")
  let material ← getStr drawing_info ("material")
  Except.ok
    { axRect := (5 / 100, 2 / 100, 4 / 10, 25 / 100)
      header := ("GENERAL NOTES")
      notes :=
        [("1. ALL DIMENSIONS IN ") ++ units.toUpper,
         ("2. UNLESS OTHERWISE SPECIFIED:"),
         ("   LINEAR TOL: ") ++ linear,
         ("   ANGULAR TOL: ") ++ angular,
         ("3. SURFACE FINISH: ") ++ surface_finish,
         ("4. REMOVE ALL BURRS AND SHARP EDGES"),
         ("5. MATERIAL: ") ++ material] }

/-- A slicing plane from the views mapping: origin and normal. -/
structure Plane where
  origin : Vec3
  normal : Vec3
deriving DecidableEq

/-- Source layout selection in create_engineering_drawing: if/elif/else on
n_views — the else branch is taken for EVERY count other than 1 and 2 and
yields the three-view preset. -/
def view_positions (n_views : ℕ) : List (ℚ × ℚ × ℚ × ℚ) :=
  if n_views = 1 then
    [(15 / 100, 4 / 10, 3 / 10, 4 / 10)]
  else if n_views = 2 then
    [(1 / 10, 4 / 10, 25 / 100, 4 / 10), (4 / 10, 4 / 10, 25 / 100, 4 / 10)]
  else
    [(5 / 100, 4 / 10, 25 / 100, 4 / 10), (35 / 100, 4 / 10, 25 / 100, 4 / 10),
     (65 / 100, 4 / 10, 25 / 100, 4 / 10)]

/-- One rendered view panel: its title, figure position, and the Axes
operations performed on it. -/
structure ViewPanel where
  title : String
  pos : ℚ × ℚ × ℚ × ℚ
  ops : List AxOp
deriving DecidableEq

/-- Body of the per-view loop: one extraction (get_cross_section) and one
rendering call (plot_cross_section) for the given views entry at the given
layout position. -/
def mkViewPanel (mesh : Mesh) (show_dimensions : Bool) (tv : String × Plane)
    (pos : ℚ × ℚ × ℚ × ℚ) : ViewPanel :=
  { title := tv.1
    pos := pos
    ops := plot_cross_section (get_cross_section mesh tv.2.origin tv.2.normal)
             tv.1 show_dimensions }

/-- The per-view loop of create_engineering_drawing:
zip(views.items(), view_positions) silently truncates to the shorter of
the two lists. -/
def drawPanels (mesh : Mesh) (views : List (String × Plane))
    (show_dimensions : Bool) : List ViewPanel :=
  (views.zip (view_positions views.length)).map
    (fun vp => mkViewPanel mesh show_dimensions vp.1 vp.2)

/-- Everything composed onto the figure by a successful
create_engineering_drawing run, including the path the raster image was
saved to (savefig runs just before the function returns savedTo). -/
structure DrawingOutput where
  meshDims : MeshDims
  panels : List ViewPanel
  titleBlock : TitleBlockRender
  notes : NotesRender
  borderRect : ℚ × ℚ × ℚ × ℚ
  savedTo : String
deriving DecidableEq

/-- Source `create_engineering_drawing(mesh, views, drawing_info,
output_path, show_dimensions)`: initialize drawing info, compute mesh
dimensions (informational), render one panel per zipped view, compose
title block, notes and border, then save.  A KeyError from a composer
aborts before the file is written. -/
def create_engineering_drawing (mesh : Mesh) (views : List (String × Plane))
    (drawing_info : Option DrawingInfo) (today : String) (output_path : String)
    (show_dimensions : Bool) : Except PyExc DrawingOutput := do
  let info := init_drawing_info today drawing_info
  let mesh_dims := get_mesh_dimensions mesh
  let panels := drawPanels mesh views show_dimensions
  let tb ← create_title_block info
  let ns ← create_notes_section info
  Except.ok
    { meshDims := mesh_dims
      panels := panels
      titleBlock := tb
      notes := ns
      borderRect := (2 / 100, 2 / 100, 96 / 100, 96 / 100)
      savedTo := output_path }

/-- Exceptions of the top-level try block, as its two except clauses
classify them. -/
inductive LoadErr where
  | fileNotFound
  | otherExc (msg : String)
deriving DecidableEq, Repr

/-- Hardcoded input filename of the script entry point. -/
def STL_FILE : String := ("ball-bearing.stl")

/-- Hardcoded output filename of the script entry point. -/
def OUTPUT_FILE : String := ("engineering_drawing.png")

/-- The hardcoded drawing_info dictionary of the entry point. -/
def main_drawing_info (today : String) : DrawingInfo :=
  [(("part_name"), FieldVal.str ("BALL BEARING")),
   (("part_number"), FieldVal.str ("BB-6000-2RS")),
   (("material"), FieldVal.str ("CHROME STEEL")),
   (("scale"), FieldVal.str ("2:1")),
   (("projection_method"), FieldVal.str ("THIRD ANGLE")),
   (("drawing_number"), FieldVal.str ("DWG-BB-001")),
   (("revision"), FieldVal.str ("A")),
   (("drawn_by"), FieldVal.str ("J. SMITH")),
   (("checked_by"), FieldVal.str ("M. JOHNSON")),
   (("approved_by"), FieldVal.str ("R. WILSON")),
   (("date"), FieldVal.str today),
   (("company"), FieldVal.str ("PRECISION BEARINGS INC.")),
   (("title"), FieldVal.str ("BALL BEARING ASSEMBLY")),
   (("units"), FieldVal.str ("mm")),
   (("surface_finish"), FieldVal.str ("1.6 μm")),
   (("tolerances"), FieldVal.tolmap [(("linear"), ("±0.05")), (("angular"), ("±0.25°"))])]

/-- The hardcoded slicing_planes dictionary of the entry point, in
insertion order. -/
def slicing_planes : List (String × Plane) :=
  [(("FRONT VIEW"), { origin := (0, 0, 0), normal := (0, 1, 0) }),
   (("TOP VIEW"), { origin := (0, 0, 0), normal := (0, 0, 1) }),
   (("RIGHT VIEW"), { origin := (0, 0, 0), normal := (1, 0, 0) })]

/-- The dimension lines printed by the entry point after a successful run
(each value through f-string :.2f formatting with a " mm" suffix). -/
def dims_report (dims : MeshDims) : List String :=
  [("\n📐 Part Dimensions:"),
   ("   Length: ") ++ fmt2 dims.length ++ (" mm"),
   ("   Width:  ") ++ fmt2 dims.width ++ (" mm"),
   ("   Height: ") ++ fmt2 dims.height ++ (" mm")]

/-- Observable outcome of one entry-point run: the printed lines and the
path of the output image, if one was written. -/
structure MainOutcome where
  printed : List String
  fileWritten : Option String
deriving DecidableEq

/-- The script entry point (the __main__ try/except block).  The disk read
is abstracted as load_result (FileNotFoundError for a missing file, any
other loader exception as otherExc); the print / plt.show effects after a
successful savefig cannot fail in this model. -/
def run_main (load_result : Except LoadErr Mesh) (drawing_info : DrawingInfo)
    (views : List (String × Plane)) (today : String) : MainOutcome :=
  match load_result with
  | Except.error LoadErr.fileNotFound =>
    { printed := [("❌ STL file \x27") ++ STL_FILE ++ ("\x27 not found. Please check the file path.")]
      fileWritten := none }
  | Except.error (LoadErr.otherExc msg) =>
    { printed := [("❌ Error: ") ++ msg]
      fileWritten := none }
  | Except.ok loaded =>
    let mesh := load_and_center_mesh loaded
    match create_engineering_drawing mesh views (some drawing_info) today OUTPUT_FILE true with
    | Except.error e =>
      { printed := [("❌ Error: ") ++ pyExcStr e]
        fileWritten := none }
    | Except.ok dout =>
      { printed := [("✅ Engineering drawing saved to: ") ++ dout.savedTo] ++
          dims_report (get_mesh_dimensions mesh)
        fileWritten := some dout.savedTo }

/-- get_cross_section with the mesh reference threaded through: the source
function performs no mutation of the mesh. -/
def get_cross_sectionM (mesh : Mesh) (origin normal : Vec3) : Option Path2D × Mesh :=
  (get_cross_section mesh origin normal, mesh)

/-- get_mesh_dimensions with the mesh reference threaded through: the
source function performs no mutation of the mesh. -/
def get_mesh_dimensionsM (mesh : Mesh) : MeshDims × Mesh :=
  (get_mesh_dimensions mesh, mesh)

/-- One iteration of the per-view loop with the mesh threaded through. -/
def drawPanelsMStep (show_dimensions : Bool) (acc : List ViewPanel × Mesh)
    (vp : (String × Plane) × (ℚ × ℚ × ℚ × ℚ)) : List ViewPanel × Mesh :=
  let secm := get_cross_sectionM acc.2 vp.1.2.origin vp.1.2.normal
  (acc.1 ++ [{ title := vp.1.1
               pos := vp.2
               ops := plot_cross_section secm.1 vp.1.1 show_dimensions }],
   secm.2)

/-- The per-view loop with the mesh threaded through every iteration. -/
def drawPanelsM (mesh : Mesh) (views : List (String × Plane))
    (show_dimensions : Bool) : List ViewPanel × Mesh :=
  (views.zip (view_positions views.length)).foldl (drawPanelsMStep show_dimensions)
    ([], mesh)

/-- create_engineering_drawing with the mesh reference threaded through all
of its mesh-consuming steps. -/
def create_engineering_drawingM (mesh : Mesh) (views : List (String × Plane))
    (drawing_info : Option DrawingInfo) (today : String) (output_path : String)
    (show_dimensions : Bool) : Except PyExc DrawingOutput × Mesh :=
  let info := init_drawing_info today drawing_info
  let dimsm := get_mesh_dimensionsM mesh
  let panelsm := drawPanelsM dimsm.2 views show_dimensions
  (match create_title_block info, create_notes_section info with
   | Except.ok tb, Except.ok ns =>
     Except.ok
       { meshDims := dimsm.1
         panels := panelsm.1
         titleBlock := tb
         notes := ns
         borderRect := (2 / 100, 2 / 100, 96 / 100, 96 / 100)
         savedTo := output_path }
   | Except.error e, _ => Except.error e
   | _, Except.error e => Except.error e,
   panelsm.2)

/-- Boolean success test for the modelled Python computations. -/
def exceptOk {α : Type} (e : Except PyExc α) : Bool :=
  match e with
  | Except.ok _ => true
  | Except.error _ => false

theorem exceptOk_bind {α β : Type} (x : Except PyExc α) (f : α → Except PyExc β)
    (h : exceptOk (x >>= f) = true) : ∃ a, x = Except.ok a ∧ exceptOk (f a) = true := by
  cases x with
  | ok a => exact ⟨a, rfl, h⟩
  | error e => simp [exceptOk, Bind.bind, Except.bind] at h

theorem getStr_ok (info : DrawingInfo) (k a : String)
    (h : getStr info k = Except.ok a) : (lookupInfo info k).isSome = true := by
  unfold getStr at h
  cases hl : lookupInfo info k with
  | none => rw [hl] at h; cases h
  | some v => rfl

theorem getTolSub_ok (info : DrawingInfo) (sub a : String)
    (h : getTolSub info sub = Except.ok a) :
    (lookupInfo info ("tolerances")).isSome = true := by
  unfold getTolSub at h
  cases hl : lookupInfo info ("tolerances") with
  | none => rw [hl] at h; cases h
  | some v => rfl

theorem is_path_closed_eq (path : List Point) (a b : Point)
    (ha : path.head? = some a) (hb : path.getLast? = some b) :
    is_path_closed path = np_allclose a b := by
  unfold is_path_closed
  rw [ha, hb]

theorem np_allclose_true_iff (a b : Point) :
    np_allclose a b = true ↔
      (|a.1 - b.1| ≤ npAtol + npRtol * |b.1| ∧ |a.2 - b.2| ≤ npAtol + npRtol * |b.2|) := by
  simp [np_allclose, coordClose]

theorem filter_isPatchOp_map_patchOf (l : List (List Point)) :
    (l.map patchOf).filter isPatchOp = l.map patchOf := by
  induction l with
  | nil => rfl
  | cons x xs ih => simp [List.filter, patchOf, isPatchOp, ih]

theorem plot_filter_patches (p : Path2D) (t : String) (sd : Bool) :
    (plot_cross_section (some p) t sd).filter isPatchOp = p.discrete.map patchOf := by
  simp only [plot_cross_section]
  rw [List.filter_append, List.filter_append, filter_isPatchOp_map_patchOf]
  cases sd with
  | false => simp [List.filter, isPatchOp]
  | true =>
    have hdims : (add_dimension_annotations p t).filter isPatchOp = [] := rfl
    simp [hdims, List.filter, isPatchOp]

/-- The offset the claim describes: 0.15 times the larger of the
bounding-box width and height. -/
def dimOffset (p : Path2D) : ℚ :=
  max (p.boundsMax.1 - p.boundsMin.1) (p.boundsMax.2 - p.boundsMin.2) * (15 / 100)

/-- C5: get_mesh_dimensions reports max - min per axis as length, width,
height (x, y, z respectively) together with the bounds, and the entry
point prints these values rendered with two decimals and a " mm" suffix
(two concrete renderings included). -/
theorem C5_mesh_dimensions (m : Mesh) :
    (get_mesh_dimensions m).length = m.boundsMax.1 - m.boundsMin.1 ∧
    (get_mesh_dimensions m).width = m.boundsMax.2.1 - m.boundsMin.2.1 ∧
    (get_mesh_dimensions m).height = m.boundsMax.2.2 - m.boundsMin.2.2 ∧
    (get_mesh_dimensions m).bounds = (m.boundsMin, m.boundsMax) ∧
    dims_report (get_mesh_dimensions m) =
      [("\n📐 Part Dimensions:"),
       ("   Length: ") ++ fmt2 (m.boundsMax.1 - m.boundsMin.1) ++ (" mm"),
       ("   Width:  ") ++ fmt2 (m.boundsMax.2.1 - m.boundsMin.2.1) ++ (" mm"),
       ("   Height: ") ++ fmt2 (m.boundsMax.2.2 - m.boundsMin.2.2) ++ (" mm")] ∧
    fmt2 (25 / 2) = ("12.50") ∧ fmt2 10 = ("10.00") := by
  refine ⟨rfl, rfl, rfl, rfl, rfl, ?_, ?_⟩
  · have h : round ((25 / 2 : ℚ) * 100) = 1250 := by norm_num [round_eq]
    simp only [fmt2, h]
    rfl
  · have h : round ((10 : ℚ) * 100) = 1000 := by norm_num [round_eq]
    simp only [fmt2, h]
    rfl

/-- C6: rendering the empty section result sets the title to
"<title> (No section)", hides the axes, and performs no geometry patch and
no dimension operation, for every title and every dimension toggle. -/
theorem C6_no_section_placeholder (title : String) (sd : Bool) :
    plot_cross_section none title sd =
      [AxOp.setTitleOp (title ++ (" (No section)")), AxOp.axisOffOp] ∧
    (plot_cross_section none title sd).filter isPatchOp = [] ∧
    (plot_cross_section none title sd).filter isDimOp = [] := by
  exact ⟨rfl, rfl, rfl⟩

/-- C7: add_dimension_annotations performs exactly the eight operations of
the source with offset 0.15 * max(width, height): per axis two dashed
extension lines and one double-headed arrow, and exactly two text labels —
the width and the height each rendered with two decimals and the fixed
" mm" suffix, centered on their dimension lines. -/
theorem C7_dimension_annotations (p : Path2D) (vn : String) :
    add_dimension_annotations p vn =
      [AxOp.plotLineOp [p.boundsMin.1, p.boundsMin.1]
         [p.boundsMin.2, p.boundsMin.2 - dimOffset p] true,
       AxOp.plotLineOp [p.boundsMax.1, p.boundsMax.1]
         [p.boundsMax.2, p.boundsMin.2 - dimOffset p] true,
       AxOp.arrowOp (p.boundsMin.1, p.boundsMin.2 - dimOffset p)
         (p.boundsMax.1, p.boundsMin.2 - dimOffset p),
       AxOp.textOp ((p.boundsMin.1 + p.boundsMax.1) / 2)
         (p.boundsMin.2 - dimOffset p - dimOffset p * (1 / 10))
         (fmt2 (p.boundsMax.1 - p.boundsMin.1) ++ (" mm")) ("center") ("top") 0,
       AxOp.plotLineOp [p.boundsMax.1 + dimOffset p, p.boundsMax.1]
         [p.boundsMax.2, p.boundsMax.2] true,
       AxOp.plotLineOp [p.boundsMax.1 + dimOffset p, p.boundsMin.1]
         [p.boundsMin.2, p.boundsMin.2] true,
       AxOp.arrowOp (p.boundsMax.1 + dimOffset p, p.boundsMin.2)
         (p.boundsMax.1 + dimOffset p, p.boundsMax.2),
       AxOp.textOp (p.boundsMax.1 + dimOffset p + dimOffset p * (1 / 10))
         ((p.boundsMin.2 + p.boundsMax.2) / 2)
         (fmt2 (p.boundsMax.2 - p.boundsMin.2) ++ (" mm")) ("left") ("center") 90] ∧
    (add_dimension_annotations p vn).filter isTextOp =
      [AxOp.textOp ((p.boundsMin.1 + p.boundsMax.1) / 2)
         (p.boundsMin.2 - dimOffset p - dimOffset p * (1 / 10))
         (fmt2 (p.boundsMax.1 - p.boundsMin.1) ++ (" mm")) ("center") ("top") 0,
       AxOp.textOp (p.boundsMax.1 + dimOffset p + dimOffset p * (1 / 10))
         ((p.boundsMin.2 + p.boundsMax.2) / 2)
         (fmt2 (p.boundsMax.2 - p.boundsMin.2) ++ (" mm")) ("left") ("center") 90] ∧
    ((add_dimension_annotations p vn).filter isDashedLineOp).length = 4 ∧
    ((add_dimension_annotations p vn).filter isArrowOp).length = 2 := by
  exact ⟨rfl, rfl, rfl, rfl⟩

/-- A mesh whose section operation finds no intersection for any plane. -/
def emptySectionMesh : Mesh :=
  { boundsMin := (0, 0, 0)
    boundsMax := (0, 0, 0)
    center_mass := (0, 0, 0)
    sectionFn := fun _ _ => none }

/-- A sample square outline used as a concrete section result. -/
def samplePath2D : Path2D :=
  { discrete := [[(0, 0), (10, 0), (10, 10), (0, 10), (0, 0)]]
    boundsMin := (0, 0)
    boundsMax := (10, 10) }

/-- A sample 3D section path wrapping the square outline. -/
def samplePath3D : Path3D :=
  { planar := samplePath2D
    to3DTransform := [] }

/-- A mesh whose section operation yields the sample outline for every
plane. -/
def sectionMesh : Mesh :=
  { boundsMin := (0, 0, 0)
    boundsMax := (10, 10, 10)
    center_mass := (5, 5, 5)
    sectionFn := fun _ _ => some samplePath3D }

/-- C3: get_cross_section returns the explicit empty result (None) exactly
when the library section is empty, and otherwise returns the 2D outline
(the first component of to_2D); being a total function of the section
result, it has no other outcome. -/
theorem C3_cross_section_empty_iff (mesh : Mesh) (origin normal : Vec3) :
    (get_cross_section mesh origin normal = none ↔ mesh.sectionFn origin normal = none) ∧
    (∀ s, mesh.sectionFn origin normal = some s →
      get_cross_section mesh origin normal = some s.to_2D.1) := by
  constructor
  · constructor
    · intro h
      cases hs : mesh.sectionFn origin normal with
      | none => rfl
      | some s => unfold get_cross_section at h; rw [hs] at h; cases h
    · intro h
      unfold get_cross_section
      rw [h]
  · intro s h
    unfold get_cross_section
    rw [h]

/-- Witness for C3: concrete meshes exercising both the empty and the
non-empty branch. -/
theorem C3_cross_section_empty_iff_witness :
    get_cross_section emptySectionMesh (0, 0, 0) (0, 1, 0) = none ∧
    get_cross_section sectionMesh (0, 0, 0) (0, 1, 0) = some samplePath2D := by
  constructor
  · exact (C3_cross_section_empty_iff emptySectionMesh (0, 0, 0) (0, 1, 0)).1.mpr rfl
  · exact (C3_cross_section_empty_iff sectionMesh (0, 0, 0) (0, 1, 0)).2 samplePath3D rfl

/-- The tolerance the claim describes, modelled from the claim's words:
first and last point coincide within 1e-2 per coordinate.  (The source's
actual test is numpy allclose, which adds a relative term rtol * |last|.) -/
def withinClaimTol (a b : Point) : Prop :=
  |a.1 - b.1| ≤ 1 / 100 ∧ |a.2 - b.2| ≤ 1 / 100

/-- A polyline whose endpoints differ by 1/50 = 0.02 in the x coordinate:
beyond the claim's 1e-2 tolerance, yet within allclose's
atol + rtol * |last| = 1e-2 + 1e-5 * 2048.02. -/
def cexPath : List Point := [((2048 : ℚ), 0), (0, 1), (2048 + 1 / 50, 0)]

/-- Counterexample to C2 as stated: the first and last points of cexPath
differ beyond 1e-2 per coordinate, yet the source treats the path as
closed and appends no closing point. -/
theorem C2_closure_counterexample :
    ¬ withinClaimTol ((2048 : ℚ), (0 : ℚ)) ((2048 + 1 / 50 : ℚ), (0 : ℚ)) ∧
    is_path_closed cexPath = true ∧
    closePoints cexPath = cexPath := by
  have hclosed : is_path_closed cexPath = true := by
    rw [is_path_closed_eq cexPath ((2048 : ℚ), 0) ((2048 + 1 / 50 : ℚ), 0) rfl rfl]
    rw [np_allclose_true_iff]
    constructor
    · rw [show (((2048 : ℚ), (0 : ℚ)).1 - (((2048 + 1 / 50 : ℚ), (0 : ℚ)).1) : ℚ) = -(1 / 50) by norm_num]
      rw [abs_neg, abs_of_nonneg (by norm_num : (0 : ℚ) ≤ 1 / 50)]
      rw [show |((((2048 + 1 / 50 : ℚ), (0 : ℚ)).1 : ℚ))| = 2048 + 1 / 50 from abs_of_nonneg (by norm_num)]
      norm_num [npAtol, npRtol]
    · rw [show (((2048 : ℚ), (0 : ℚ)).2 - (((2048 + 1 / 50 : ℚ), (0 : ℚ)).2) : ℚ) = 0 by norm_num]
      rw [abs_zero]
      norm_num [npAtol, npRtol]
  refine ⟨?_, hclosed, ?_⟩
  · intro h
    have h1 := h.1
    rw [show (((2048 : ℚ), (0 : ℚ)).1 - (((2048 + 1 / 50 : ℚ), (0 : ℚ)).1) : ℚ) = -(1 / 50) by norm_num] at h1
    rw [abs_neg, abs_of_nonneg (by norm_num : (0 : ℚ) ≤ 1 / 50)] at h1
    norm_num at h1
  · simp [closePoints, hclosed]

/-- C2 (amended): the closure test is numpy allclose with atol = 1e-2 and
the default rtol = 1e-5 — per coordinate |first - last| <= 1e-2 +
1e-5 * |last|.  When the test holds the point sequence is unchanged; when
it fails exactly one copy of the first point is appended; each polyline
becomes one boundary-only (unfilled) polygon patch with the MOVETO /
LINETO / CLOSEPOLY code sequence. -/
theorem C2_closure_behavior (path : List Point) (a b : Point)
    (h2 : 2 ≤ path.length) (ha : path.head? = some a) (hb : path.getLast? = some b) :
    (is_path_closed path = true ↔
      (|a.1 - b.1| ≤ npAtol + npRtol * |b.1| ∧ |a.2 - b.2| ≤ npAtol + npRtol * |b.2|)) ∧
    (is_path_closed path = true → closePoints path = path) ∧
    (is_path_closed path = false → closePoints path = path ++ [a]) ∧
    patchOf path = AxOp.addPatchOp (closePoints path)
      ([PathCode.moveto] ++ List.replicate ((closePoints path).length - 2) PathCode.lineto ++
        [PathCode.closepoly]) false ∧
    (∀ (p : Path2D) (t : String) (sd : Bool),
      (plot_cross_section (some p) t sd).filter isPatchOp = p.discrete.map patchOf) := by
  have hhead : path.headI = a := by
    cases path with
    | nil => cases ha
    | cons x xs => simpa using ha
  refine ⟨?_, ?_, ?_, rfl, fun p t sd => plot_filter_patches p t sd⟩
  · rw [is_path_closed_eq path a b ha hb]
    exact np_allclose_true_iff a b
  · intro h
    simp [closePoints, h]
  · intro h
    simp [closePoints, h, hhead]

/-- A polyline whose endpoints are far apart (forced closure applies). -/
def openPath : List Point := [((0 : ℚ), (0 : ℚ)), (10, 0), (10, 10)]

/-- Witness for C2 (amended): on the concrete open polyline exactly one
copy of the first point is appended. -/
theorem C2_closure_behavior_witness :
    closePoints openPath = openPath ++ [((0 : ℚ), (0 : ℚ))] := by
  have h := C2_closure_behavior openPath ((0 : ℚ), (0 : ℚ)) ((10 : ℚ), (10 : ℚ))
    (by decide) rfl rfl
  apply h.2.2.1
  cases hc : is_path_closed openPath with
  | false => rfl
  | true =>
    exfalso
    have hp := (h.1.mp hc).1
    rw [show ((((0 : ℚ), (0 : ℚ)).1 - (((10 : ℚ), (10 : ℚ)).1) : ℚ)) = -(10) by norm_num] at hp
    rw [abs_neg, abs_of_nonneg (by norm_num : (0 : ℚ) ≤ (10 : ℚ))] at hp
    norm_num [npAtol, npRtol] at hp

/-- C1: for a views mapping with 1, 2 or 3 entries, the selected layout
preset has exactly as many positions as views, the orchestrator renders
exactly one panel per entry, and panel i is the extraction-plus-rendering
of entry i at position i. -/
theorem C1_layout_matches_view_count (m : Mesh) (views : List (String × Plane)) (sd : Bool)
    (h : views.length = 1 ∨ views.length = 2 ∨ views.length = 3) :
    (view_positions views.length).length = views.length ∧
    (drawPanels m views sd).length = views.length ∧
    (∀ (i : ℕ) (h1 : i < (drawPanels m views sd).length) (h2 : i < views.length)
      (h3 : i < (view_positions views.length).length),
      (drawPanels m views sd).get ⟨i, h1⟩ =
        mkViewPanel m sd (views.get ⟨i, h2⟩) ((view_positions views.length).get ⟨i, h3⟩)) := by
  have hpos : (view_positions views.length).length = views.length := by
    rcases h with h | h | h <;> rw [h] <;> rfl
  refine ⟨hpos, ?_, ?_⟩
  · simp [drawPanels, List.length_zip, hpos]
  · intro i h1 h2 h3
    simp [drawPanels, List.get_eq_getElem, List.getElem_map, List.getElem_zip]

/-- A one-entry views mapping. -/
def views1 : List (String × Plane) :=
  [(("FRONT VIEW"), { origin := (0, 0, 0), normal := (0, 1, 0) })]

/-- Witness for C1 at a concrete one-view mapping. -/
theorem C1_layout_matches_view_count_witness :
    (views1.length = 1 ∨ views1.length = 2 ∨ views1.length = 3) ∧
    (view_positions views1.length).length = views1.length ∧
    (drawPanels emptySectionMesh views1 true).length = views1.length := by
  have h := C1_layout_matches_view_count emptySectionMesh views1 true (Or.inl rfl)
  exact ⟨Or.inl rfl, h.1, h.2.1⟩

/-- A four-entry views mapping. -/
def views4 : List (String × Plane) :=
  [(("FRONT VIEW"), { origin := (0, 0, 0), normal := (0, 1, 0) }),
   (("TOP VIEW"), { origin := (0, 0, 0), normal := (0, 0, 1) }),
   (("RIGHT VIEW"), { origin := (0, 0, 0), normal := (1, 0, 0) }),
   (("BACK VIEW"), { origin := (0, 0, 0), normal := (0, -1, 0) })]

/-- Counterexample to C4 as stated: for a four-entry views mapping nothing
fails — the else branch selects the three-view preset and the orchestrator
silently renders three panels (a different number than supplied). -/
theorem C4_counterexample :
    views4.length = 4 ∧
    (view_positions views4.length).length = 3 ∧
    (drawPanels emptySectionMesh views4 true).length = 3 := by
  have h3 : (view_positions views4.length).length = 3 := rfl
  have h4 : views4.length = 4 := rfl
  have h5 : (view_positions (4 : ℕ)).length = 3 := rfl
  refine ⟨rfl, h3, ?_⟩
  simp [drawPanels, List.length_zip, h4, h5]

/-- C4 (amended): for every views mapping whose entry count is outside
one-two-three, the if/elif/else falls through to the three-view preset
(three positions are selected, nothing fails) and zip truncation makes the
orchestrator silently render min(n, 3) panels — 0 for an empty mapping, 3
for four or more entries. -/
theorem C4_layout_out_of_range (m : Mesh) (views : List (String × Plane)) (sd : Bool)
    (h1 : views.length ≠ 1) (h2 : views.length ≠ 2) (h3 : views.length ≠ 3) :
    (view_positions views.length).length = 3 ∧
    (drawPanels m views sd).length = min views.length 3 := by
  have hpos : (view_positions views.length).length = 3 := by
    unfold view_positions
    rw [if_neg h1, if_neg h2]
    rfl
  refine ⟨hpos, ?_⟩
  simp [drawPanels, List.length_zip, hpos]

/-- Witness for C4 (amended) at the empty views mapping. -/
theorem C4_layout_out_of_range_witness :
    (view_positions ([] : List (String × Plane)).length).length = 3 ∧
    (drawPanels emptySectionMesh ([] : List (String × Plane)) true).length =
      min ([] : List (String × Plane)).length 3 := by
  exact C4_layout_out_of_range emptySectionMesh [] true (by decide) (by decide) (by decide)

theorem drawPanelsMStep_foldl_snd (sd : Bool)
    (l : List ((String × Plane) × (ℚ × ℚ × ℚ × ℚ))) (acc : List ViewPanel × Mesh) :
    (l.foldl (drawPanelsMStep sd) acc).2 = acc.2 := by
  induction l generalizing acc with
  | nil => rfl
  | cons x xs ih =>
    rw [List.foldl_cons, ih]
    rfl

/-- C9: load_and_center_mesh translates the loaded mesh by the negation of
its center of mass, leaving the center of mass at the origin; threading
the mesh reference through every other mesh-consuming operation
(get_cross_section, get_mesh_dimensions, the whole orchestrator) returns
it unchanged — the centering translation is the only mutation. -/
theorem C9_mesh_mutation (m : Mesh) (origin normal : Vec3)
    (views : List (String × Plane)) (di : Option DrawingInfo) (today out : String)
    (sd : Bool) :
    (load_and_center_mesh m).center_mass = 0 ∧
    (get_cross_sectionM m origin normal).2 = m ∧
    (get_mesh_dimensionsM m).2 = m ∧
    (create_engineering_drawingM m views di today out sd).2 = m := by
  refine ⟨?_, rfl, rfl, ?_⟩
  · show m.center_mass + -m.center_mass = 0
    simp
  · show (drawPanelsM m views sd).2 = m
    exact drawPanelsMStep_foldl_snd sd (views.zip (view_positions views.length)) ([], m)

/-- The drawing-info keys the title block composer reads, in evaluation
order. -/
def titleKeys : List String :=
  [("company"), ("title"), ("part_name"), ("part_number"), ("material"), ("scale"),
   ("projection_method"), ("units"), ("drawn_by"), ("date"), ("drawing_number")]

/-- The drawing-info keys the notes composer reads. -/
def notesKeys : List String :=
  [("units"), ("tolerances"), ("surface_finish"), ("material")]

theorem create_title_block_ok_keys (info : DrawingInfo)
    (h : exceptOk (create_title_block info) = true) :
    ∀ k ∈ titleKeys, (lookupInfo info k).isSome = true := by
  unfold create_title_block at h
  obtain ⟨company, hc1, h⟩ := exceptOk_bind _ _ h
  obtain ⟨title, hc2, h⟩ := exceptOk_bind _ _ h
  obtain ⟨part_name, hc3, h⟩ := exceptOk_bind _ _ h
  obtain ⟨part_number, hc4, h⟩ := exceptOk_bind _ _ h
  obtain ⟨material, hc5, h⟩ := exceptOk_bind _ _ h
  obtain ⟨scale, hc6, h⟩ := exceptOk_bind _ _ h
  obtain ⟨projection_method, hc7, h⟩ := exceptOk_bind _ _ h
  obtain ⟨units, hc8, h⟩ := exceptOk_bind _ _ h
  obtain ⟨drawn_by, hc9, h⟩ := exceptOk_bind _ _ h
  obtain ⟨date, hc10, h⟩ := exceptOk_bind _ _ h
  obtain ⟨drawing_number, hc11, h⟩ := exceptOk_bind _ _ h
  intro k hk
  simp only [titleKeys, List.mem_cons, List.not_mem_nil, or_false] at hk
  rcases hk with rfl | rfl | rfl | rfl | rfl | rfl | rfl | rfl | rfl | rfl | rfl
  · exact getStr_ok _ _ _ hc1
  · exact getStr_ok _ _ _ hc2
  · exact getStr_ok _ _ _ hc3
  · exact getStr_ok _ _ _ hc4
  · exact getStr_ok _ _ _ hc5
  · exact getStr_ok _ _ _ hc6
  · exact getStr_ok _ _ _ hc7
  · exact getStr_ok _ _ _ hc8
  · exact getStr_ok _ _ _ hc9
  · exact getStr_ok _ _ _ hc10
  · exact getStr_ok _ _ _ hc11

theorem create_notes_section_ok_keys (info : DrawingInfo)
    (h : exceptOk (create_notes_section info) = true) :
    ∀ k ∈ notesKeys, (lookupInfo info k).isSome = true := by
  unfold create_notes_section at h
  obtain ⟨units, hn1, h⟩ := exceptOk_bind _ _ h
  obtain ⟨linear, hn2, h⟩ := exceptOk_bind _ _ h
  obtain ⟨angular, hn3, h⟩ := exceptOk_bind _ _ h
  obtain ⟨surface_finish, hn4, h⟩ := exceptOk_bind _ _ h
  obtain ⟨material, hn5, h⟩ := exceptOk_bind _ _ h
  intro k hk
  simp only [notesKeys, List.mem_cons, List.not_mem_nil, or_false] at hk
  rcases hk with rfl | rfl | rfl | rfl
  · exact getStr_ok _ _ _ hn1
  · exact getTolSub_ok _ _ _ hn2
  · exact getStr_ok _ _ _ hn4
  · exact getStr_ok _ _ _ hn5

/-- C10: a None or empty drawing_info is replaced wholesale by the default
template, which carries every key the title block and notes composers
read, so both composers succeed on it; a non-empty mapping is used as
given with no per-field fallback, and when it misses any key a composer
reads, that composer fails with a key-lookup error. -/
theorem C10_drawing_info_defaulting (today : String) :
    init_drawing_info today none = get_default_drawing_info today ∧
    init_drawing_info today (some []) = get_default_drawing_info today ∧
    (∀ info : DrawingInfo, info ≠ [] → init_drawing_info today (some info) = info) ∧
    (∀ k ∈ titleKeys ++ notesKeys,
      (lookupInfo (get_default_drawing_info today) k).isSome = true) ∧
    exceptOk (create_title_block (get_default_drawing_info today)) = true ∧
    exceptOk (create_notes_section (get_default_drawing_info today)) = true ∧
    (∀ (info : DrawingInfo) (k : String), k ∈ titleKeys → lookupInfo info k = none →
      exceptOk (create_title_block info) = false) ∧
    (∀ (info : DrawingInfo) (k : String), k ∈ notesKeys → lookupInfo info k = none →
      exceptOk (create_notes_section info) = false) := by
  refine ⟨rfl, rfl, ?_, ?_, rfl, rfl, ?_, ?_⟩
  · intro info hne
    cases info with
    | nil => exact absurd rfl hne
    | cons x xs => rfl
  · intro k hk
    fin_cases hk <;> rfl
  · intro info k hk hnone
    cases hok : exceptOk (create_title_block info) with
    | false => rfl
    | true =>
      exfalso
      have hs := create_title_block_ok_keys info hok k hk
      rw [hnone] at hs
      cases hs
  · intro info k hk hnone
    cases hok : exceptOk (create_notes_section info) with
    | false => rfl
    | true =>
      exfalso
      have hs := create_notes_section_ok_keys info hok k hk
      rw [hnone] at hs
      cases hs

/-- A non-empty drawing_info mapping missing most consumed keys. -/
def badInfo : DrawingInfo := [(("part_name"), FieldVal.str ("X"))]

/-- Witness for C10: the concrete non-empty mapping is used as given, and
both composers fail on it (it misses "company" and "tolerances"). -/
theorem C10_drawing_info_defaulting_witness :
    init_drawing_info ("2026-10-12") (some badInfo) = badInfo ∧
    exceptOk (create_title_block badInfo) = false ∧
    exceptOk (create_notes_section badInfo) = false := by
  obtain ⟨h1, h2, h3, h4, h5, h6, h7, h8⟩ := C10_drawing_info_defaulting ("2026-10-12")
  refine ⟨h3 badInfo (by simp [badInfo]), ?_, ?_⟩
  · exact h7 badInfo ("company") (by simp [titleKeys]) rfl
  · exact h8 badInfo ("tolerances") (by simp [notesKeys]) rfl

theorem create_engineering_drawing_savedTo (mesh : Mesh) (views : List (String × Plane))
    (di : Option DrawingInfo) (today out : String) (sd : Bool) (dout : DrawingOutput)
    (h : create_engineering_drawing mesh views di today out sd = Except.ok dout) :
    dout.savedTo = out := by
  simp only [create_engineering_drawing] at h
  cases htb : create_title_block (init_drawing_info today di) with
  | error e =>
    rw [htb] at h
    simp [Bind.bind, Except.bind] at h
  | ok tb =>
    rw [htb] at h
    cases hns : create_notes_section (init_drawing_info today di) with
    | error e =>
      rw [hns] at h
      simp [Bind.bind, Except.bind] at h
    | ok ns =>
      rw [hns] at h
      simp only [Bind.bind, Except.bind, Except.ok.injEq] at h
      rw [← h]

/-- C8: the entry point prints the specific file-not-found message on a
missing input file, a generic message carrying the exception text for any
other load failure or pipeline exception, and on success the success
message plus the formatted dimensions; the output image exists exactly
when the whole drawing pipeline (through savefig) completed, and it is
written at the fixed output path. -/
theorem C8_entry_point (load_result : Except LoadErr Mesh) (drawing_info : DrawingInfo)
    (views : List (String × Plane)) (today : String) :
    ((run_main load_result drawing_info views today).fileWritten.isSome = true ↔
      (∃ m, load_result = Except.ok m ∧
        exceptOk (create_engineering_drawing (load_and_center_mesh m) views
          (some drawing_info) today OUTPUT_FILE true) = true)) ∧
    (load_result = Except.error LoadErr.fileNotFound →
      run_main load_result drawing_info views today =
        { printed := [("❌ STL file \x27") ++ STL_FILE ++ ("\x27 not found. Please check the file path.")]
          fileWritten := none }) ∧
    (∀ msg, load_result = Except.error (LoadErr.otherExc msg) →
      run_main load_result drawing_info views today =
        { printed := [("❌ Error: ") ++ msg], fileWritten := none }) ∧
    (∀ m e, load_result = Except.ok m →
      create_engineering_drawing (load_and_center_mesh m) views (some drawing_info) today
        OUTPUT_FILE true = Except.error e →
      run_main load_result drawing_info views today =
        { printed := [("❌ Error: ") ++ pyExcStr e], fileWritten := none }) ∧
    (∀ m dout, load_result = Except.ok m →
      create_engineering_drawing (load_and_center_mesh m) views (some drawing_info) today
        OUTPUT_FILE true = Except.ok dout →
      run_main load_result drawing_info views today =
        { printed := [("✅ Engineering drawing saved to: ") ++ dout.savedTo] ++
            dims_report (get_mesh_dimensions (load_and_center_mesh m))
          fileWritten := some dout.savedTo } ∧ dout.savedTo = OUTPUT_FILE) := by
  refine ⟨?_, ?_, ?_, ?_, ?_⟩
  · constructor
    · intro hws
      cases lr : load_result with
      | error e =>
        rw [lr] at hws
        cases e <;> simp [run_main] at hws
      | ok m =>
        refine ⟨m, rfl, ?_⟩
        rw [lr] at hws
        cases hc : create_engineering_drawing (load_and_center_mesh m) views
            (some drawing_info) today OUTPUT_FILE true with
        | error e => simp [run_main, hc] at hws
        | ok dout => simp [exceptOk]
    · rintro ⟨m, hm, hok⟩
      rw [hm]
      cases hc : create_engineering_drawing (load_and_center_mesh m) views
          (some drawing_info) today OUTPUT_FILE true with
      | error e =>
        rw [hc] at hok
        simp [exceptOk] at hok
      | ok dout => simp [run_main, hc]
  · intro hl
    rw [hl]
    rfl
  · intro msg hl
    rw [hl]
    rfl
  · intro m e hl hc
    rw [hl]
    simp [run_main, hc]
  · intro m dout hl hc
    refine ⟨?_, create_engineering_drawing_savedTo _ _ _ _ _ _ _ hc⟩
    rw [hl]
    simp [run_main, hc]

/-- Witness for C8: the file-not-found branch at the hardcoded
configuration, and a successful run writing the output file. -/
theorem C8_entry_point_witness :
    run_main (Except.error LoadErr.fileNotFound) (main_drawing_info ("2026-10-12"))
      slicing_planes ("2026-10-12") =
      { printed := [("❌ STL file \x27") ++ STL_FILE ++ ("\x27 not found. Please check the file path.")]
        fileWritten := none } ∧
    (run_main (Except.ok sectionMesh) (main_drawing_info ("2026-10-12")) slicing_planes
      ("2026-10-12")).fileWritten.isSome = true := by
  constructor
  · exact (C8_entry_point (Except.error LoadErr.fileNotFound)
      (main_drawing_info ("2026-10-12")) slicing_planes ("2026-10-12")).2.1 rfl
  · exact (C8_entry_point (Except.ok sectionMesh) (main_drawing_info ("2026-10-12"))
      slicing_planes ("2026-10-12")).1.mpr ⟨sectionMesh, rfl, rfl⟩
